import Mathlib

/-!
Shallow embedding of `src/app.py` (Debt Eligibility Checker).

The program's core is two pure functions over an in-memory table
(a pandas DataFrame in the source):

* `compute_debt_eligibility df col_m1 col_m2 col_m3` — coerces the three
  selected columns to numbers (`pd.to_numeric(·, errors="coerce").fillna(0)`),
  builds four boolean masks and dispatches per row with `np.select`
  (first matching condition wins, with a default), then assigns the two
  result columns `DebtEligibility` and `Reason` on a copy of the frame.
* `guess_balance_columns df` — keyword-based name exclusion plus a numeric
  parse-ratio threshold (`> 0.3`), with a fall-back to all columns.

Modelling choices:

* A cell (`Cell`) is either a value that `pd.to_numeric` parses to a number
  (`Cell.num q`, with the number as a rational — pandas floats are modelled
  exactly, matching the spec's exact-comparison semantics), a non-numeric
  text (`Cell.str`), or a missing value (`Cell.null`, i.e. NaN/None).
* A table is an ordered list of named columns, each an ordered list of cells;
  rows are aligned by position (`Table.aligned`).
* pandas column assignment `df[c] = v` replaces the values of an existing
  column `c` in place (keeping its position) and appends a new column
  otherwise; `Table.setCol` reproduces exactly that.
* `df[c]` on a missing column raises `KeyError`; this is the
  `ColumnNotFound` condition of the spec and is modelled with `Except`.
* `np.select(condlist, choicelist, default)` is modelled by `npSelect`:
  element-wise first-match over the condition lists.
* `pd.Series.value_counts(dropna=False)` is modelled by `value_counts`:
  every distinct value paired with its multiplicity.  pandas orders the
  result by descending frequency; the spec leaves the order semantically
  unconstrained, and `value_counts` here lists distinct values in first-seen
  order (a deterministic order, as the spec requires).
-/

/-- A cell of the table: a value parseable as a number, a non-numeric text,
or a missing value (NaN / None). -/
inductive Cell where
  | num (q : ℚ)
  | str (s : String)
  | null
deriving DecidableEq, Repr

/-- Model of `pd.to_numeric(cell, errors="coerce")` on one cell: the number if the cell
parses, `none` (NaN) otherwise. -/
def parseNum : Cell → Option ℚ
  | Cell.num q => some q
  | Cell.str _ => none
  | Cell.null => none

/-- A named column of the table. -/
structure Column where
  name : String
  values : List Cell
deriving DecidableEq, Repr

/-- A table: an ordered sequence of named columns; rows are aligned by
position across columns. -/
structure Table where
  cols : List Column
deriving DecidableEq, Repr

/-- Column lookup `df[c]`: the first column named `c`, if any. -/
def Table.find? (t : Table) (c : String) : Option Column :=
  t.cols.find? (fun col => col.name == c)

/-- Number of rows (length of the first column; `0` for a table with no
columns). -/
def Table.nrows (t : Table) : Nat :=
  (t.cols.head?.map (fun c => c.values.length)).getD 0

/-- All columns have exactly `nrows` values (the DataFrame invariant). -/
def Table.aligned (t : Table) : Prop :=
  ∀ c ∈ t.cols, c.values.length = t.nrows

instance (t : Table) : Decidable t.aligned := by
  unfold Table.aligned; infer_instance

/-- Model of pandas column assignment `df[name] = vals`: replace the values of every column named `name`
in place, or append a new column when none exists. -/
def Table.setCol (t : Table) (name : String) (vals : List Cell) : Table :=
  if t.cols.any (fun c => c.name == name) then
    ⟨t.cols.map (fun c => if c.name == name then ⟨c.name, vals⟩ else c)⟩
  else
    ⟨t.cols ++ [⟨name, vals⟩]⟩

/-- Model of `pd.to_numeric(s, errors="coerce").fillna(0)` (the body of the local
helper `to_num` in `compute_debt_eligibility`): parse every cell, replacing
a missing or unparseable value by `0`.  Total by construction. -/
def to_num (s : List Cell) : List ℚ :=
  s.map (fun v => (parseNum v).getD 0)

/-- Element-wise comparison of a series with a scalar (`m == 0`). -/
def eqScalar (s : List ℚ) (c : ℚ) : List Bool :=
  s.map (fun x => decide (x = c))

/-- Element-wise `<` of two series (`m1 < m2`). -/
def ltMask (a b : List ℚ) : List Bool :=
  List.zipWith (fun x y => decide (x < y)) a b

/-- Element-wise `>` of two series (`m1 > m2`). -/
def gtMask (a b : List ℚ) : List Bool :=
  List.zipWith (fun x y => decide (x > y)) a b

/-- Element-wise `==` of two series (`m1 == m2`). -/
def eqMask (a b : List ℚ) : List Bool :=
  List.zipWith (fun x y => decide (x = y)) a b

/-- Element-wise `&` of two boolean series. -/
def andMask (a b : List Bool) : List Bool :=
  List.zipWith (fun x y => x && y) a b

/-- One row of `np.select`: return the choice of the first true condition,
or the default when none holds. -/
def selectRow : List (Bool × String) → String → String
  | [], d => d
  | (b, s) :: rest, d => if b then s else selectRow rest d

/-- Model of `np.select(condlist, choicelist, default)` over `n` rows: for each row
index, first-match over the condition/choice pairs. -/
def npSelect (cs : List (List Bool × String)) (dflt : String) (n : Nat) : List String :=
  (List.range n).map (fun i => selectRow (cs.map (fun p => (p.1.getD i false, p.2))) dflt)

/-- The `DebtEligibility` series: the four masks of lines 23–26 of
`app.py` and the `np.select` call of lines 28–32. -/
def eligSeries (m1 m2 m3 : List ℚ) (n : Nat) : List String :=
  let zero_all := andMask (andMask (eqScalar m1 0) (eqScalar m2 0)) (eqScalar m3 0)
  let strictly_increasing := andMask (ltMask m1 m2) (ltMask m2 m3)
  let strictly_decreasing := andMask (gtMask m1 m2) (gtMask m2 m3)
  let constant := andMask (eqMask m1 m2) (eqMask m2 m3)
  npSelect [(zero_all, "Eligible"), (strictly_increasing, "Ineligible"),
            (strictly_decreasing, "Eligible"), (constant, "Dormant")]
    ("Ineligible") n

/-- The `Reason` series: the same masks, the `np.select` call of
lines 34–41 of `app.py`. -/
def reasonSeries (m1 m2 m3 : List ℚ) (n : Nat) : List String :=
  let zero_all := andMask (andMask (eqScalar m1 0) (eqScalar m2 0)) (eqScalar m3 0)
  let strictly_increasing := andMask (ltMask m1 m2) (ltMask m2 m3)
  let strictly_decreasing := andMask (gtMask m1 m2) (gtMask m2 m3)
  let constant := andMask (eqMask m1 m2) (eqMask m2 m3)
  npSelect [(zero_all, "Zero balance across selected months"),
            (strictly_increasing, "Strictly increasing debt across selected months"),
            (strictly_decreasing, "Strictly decreasing debt across selected months"),
            (constant, "Constant balance across selected months (Dormant)")]
    ("Mixed behaviour") n

/-- The function `compute_debt_eligibility(df, col_m1, col_m2, col_m3)` of `app.py`
lines 11–43.  Looks up the three balance columns (a missing one raises
`KeyError` in pandas — the spec's `ColumnNotFound` condition), coerces them
with `to_num`, and assigns the two result columns on a copy of the frame. -/
def compute_debt_eligibility (df : Table) (col_m1 col_m2 col_m3 : String) :
    Except String Table :=
  match df.find? col_m1, df.find? col_m2, df.find? col_m3 with
  | some k1, some k2, some k3 =>
      let m1 := to_num k1.values
      let m2 := to_num k2.values
      let m3 := to_num k3.values
      let n := df.nrows
      let elig := eligSeries m1 m2 m3 n
      let reason := reasonSeries m1 m2 m3 n
      Except.ok ((df.setCol ("DebtEligibility") (elig.map Cell.str)).setCol
        ("Reason") (reason.map Cell.str))
  | _, _, _ => Except.error ("ColumnNotFound")

/-- The keyword list of `guess_balance_columns` (line 49 of `app.py`). -/
def exclude_keywords : List String :=
  ["member", "route", "name", "date", "month", "year", "id", "clerk", "zone"]

/-- Whether `needle` starts the character list `hay`. -/
def startsWithChars : List Char → List Char → Bool
  | [], _ => true
  | _ :: _, [] => false
  | a :: as, b :: bs => a == b && startsWithChars as bs

/-- Whether `needle` occurs as a contiguous run inside `hay`
(Python's `needle in hay` on strings). -/
def occursIn (needle : List Char) : List Char → Bool
  | [] => needle.isEmpty
  | b :: bs => startsWithChars needle (b :: bs) || occursIn needle bs

/-- Python `s.lower()` on a column name: lowercase character list (column
names here are ASCII, where `Char.toLower` agrees with Python's `lower`). -/
def lowerChars (s : String) : List Char :=
  s.data.map Char.toLower

/-- Python `k in s` substring test against a (lowercased) character list. -/
def strHas (hay : List Char) (needle : String) : Bool :=
  occursIn needle.data hay

/-- Fraction of values of a column that `pd.to_numeric(·, errors="coerce")`
parses successfully (`series.notna().mean()` at line 57 of `app.py`);
`0` for an empty column (pandas yields NaN there, and `NaN > 0.3` is
false, which the rational `0` reproduces). -/
def numFrac (vals : List Cell) : ℚ :=
  ((vals.filter (fun v => (parseNum v).isSome)).length : ℚ) / (vals.length : ℚ)

/-- The per-column filter of `guess_balance_columns`: the lowercased name
contains no excluded keyword, and the numeric parse fraction exceeds `0.3`. -/
def keepCol (c : Column) : Bool :=
  !(exclude_keywords.any (fun k => strHas (lowerChars c.name) k)) &&
    decide (numFrac c.values > 3 / 10)

/-- The function `guess_balance_columns(df)` of `app.py` lines 45–61: filter by name
keywords and parse ratio; fall back to all columns when nothing passes. -/
def guess_balance_columns (df : Table) : List String :=
  let candidates := (df.cols.filter keepCol).map (fun c => c.name)
  if candidates.isEmpty then df.cols.map (fun c => c.name) else candidates

/-- Model of `results["DebtEligibility"].value_counts(dropna=False)` (line 122 of
`app.py`): every distinct value of the series paired with the number of
rows carrying it.  Distinct values are listed in first-seen order; pandas
sorts by descending count, an ordering the spec leaves unconstrained
beyond determinism. -/
def value_counts : List Cell → List (Cell × Nat)
  | [] => []
  | v :: rest =>
      (v, (v :: rest).count v) :: value_counts (rest.filter (fun w => w ≠ v))
termination_by l => l.length
decreasing_by
  simp only [List.length_cons]
  exact Nat.lt_succ_of_le (List.length_filter_le _ _)

/-- The spec's first-match decision rule for the label, written as nested
conditionals over the three coerced values (§4.2 of the spec): this is the
statement-side description that `eligSeries` is proved to implement. -/
def ruleLabel (v1 v2 v3 : ℚ) : String :=
  if v1 = 0 ∧ v2 = 0 ∧ v3 = 0 then ("Eligible")
  else if v1 < v2 ∧ v2 < v3 then ("Ineligible")
  else if v1 > v2 ∧ v2 > v3 then ("Eligible")
  else if v1 = v2 ∧ v2 = v3 then ("Dormant")
  else ("Ineligible")

/-- The spec's first-match decision rule for the reason string. -/
def ruleReason (v1 v2 v3 : ℚ) : String :=
  if v1 = 0 ∧ v2 = 0 ∧ v3 = 0 then ("Zero balance across selected months")
  else if v1 < v2 ∧ v2 < v3 then ("Strictly increasing debt across selected months")
  else if v1 > v2 ∧ v2 > v3 then ("Strictly decreasing debt across selected months")
  else if v1 = v2 ∧ v2 = v3 then ("Constant balance across selected months (Dormant)")
  else ("Mixed behaviour")

/-- Projection of a classification result to its `DebtEligibility` and
`Reason` columns (the two derived outputs; `none` for a failed run). -/
def resultPair (r : Except String Table) : Option (Option Column × Option Column) :=
  match r with
  | Except.ok t => some (t.find? ("DebtEligibility"), t.find? ("Reason"))
  | Except.error _ => none

/-- Projection of a classification result to the cells of its
`DebtEligibility` column. -/
def labelCells (r : Except String Table) : Option (List Cell) :=
  match r with
  | Except.ok t => (t.find? ("DebtEligibility")).map (fun c => c.values)
  | Except.error _ => none

/-- A one-row table with balance columns `m1`, `m2`, `m3` holding the three
given cells. -/
def row1Table (a b c : Cell) : Table :=
  ⟨[⟨"m1", [a]⟩, ⟨"m2", [b]⟩, ⟨"m3", [c]⟩]⟩

/-- The four-row end-to-end example of §8 of the spec: member/route columns
and month columns with value triples (100,50,50), (0,0,0), (10,20,30),
(30,20,10). -/
def demoTable : Table :=
  ⟨[⟨"MemberNo", [Cell.num 1, Cell.num 2, Cell.num 3, Cell.num 4]⟩,
    ⟨"Route", [Cell.str ("A"), Cell.str ("B"), Cell.str ("C"), Cell.str ("D")]⟩,
    ⟨"m1", [Cell.num 100, Cell.num 0, Cell.num 10, Cell.num 30]⟩,
    ⟨"m2", [Cell.num 50, Cell.num 0, Cell.num 20, Cell.num 20]⟩,
    ⟨"m3", [Cell.num 50, Cell.num 0, Cell.num 30, Cell.num 10]⟩]⟩

/-- A table whose only column is named `member` (every column is excluded
by the guesser's keyword filter). -/
def tMem : Table := ⟨[⟨"member", [Cell.num 1]⟩]⟩

/-- A table that already carries a `DebtEligibility` column before
classification. -/
def tDE : Table := ⟨[⟨"m", [Cell.num 1]⟩, ⟨"DebtEligibility", [Cell.str ("x")]⟩]⟩

/-- A one-column, one-row table with a zero balance. -/
def tZero : Table := ⟨[⟨"m", [Cell.num 0]⟩]⟩

/-- The table produced by classifying `tZero` on its single column. -/
def tZeroOut : Table :=
  ⟨[⟨"m", [Cell.num 0]⟩, ⟨"DebtEligibility", [Cell.str ("Eligible")]⟩,
    ⟨"Reason", [Cell.str ("Zero balance across selected months")]⟩]⟩

/-- The table produced by classifying `tDE` on its column `m`: the
pre-existing `DebtEligibility` column is overwritten in place, only
`Reason` is appended. -/
def tDEout : Table :=
  ⟨[⟨"m", [Cell.num 1]⟩, ⟨"DebtEligibility", [Cell.str ("Dormant")]⟩,
    ⟨"Reason", [Cell.str ("Constant balance across selected months (Dormant)")]⟩]⟩

/-- A table with one keyword-excluded column and one numeric balance
column. -/
def wGuess : Table :=
  ⟨[⟨"MemberNo", [Cell.num 1]⟩, ⟨"bal", [Cell.num 5]⟩]⟩

/-- A classified table holding only a `DebtEligibility` column, with a
non-canonical label among the values. -/
def wSummary : Table :=
  ⟨[⟨"DebtEligibility",
    [Cell.str ("Eligible"), Cell.str ("Weird"), Cell.str ("Eligible")]⟩]⟩

/-! Helper lemmas: pointwise behaviour of the series combinators. -/

theorem getD_map_of_lt {α β : Type} (f : α → β) (l : List α) (d0 : α) (d : β)
    (i : Nat) (h : i < l.length) :
    (l.map f).getD i d = f (l.getD i d0) := by
  rw [List.getD_eq_getElem _ _ h, List.getD_eq_getElem _ _ (by simpa using h),
    List.getElem_map]

theorem getD_zipWith_of_lt {α β γ : Type} (f : α → β → γ) (a : List α) (b : List β)
    (da : α) (db : β) (d : γ) (i : Nat) (h1 : i < a.length) (h2 : i < b.length) :
    (List.zipWith f a b).getD i d = f (a.getD i da) (b.getD i db) := by
  rw [List.getD_eq_getElem _ _ h1, List.getD_eq_getElem _ _ h2,
    List.getD_eq_getElem _ _ (by rw [List.length_zipWith]; exact lt_min h1 h2),
    List.getElem_zipWith]

theorem getD_range_map {β : Type} (g : Nat → β) (d : β) (n i : Nat) (h : i < n) :
    ((List.range n).map g).getD i d = g i := by
  rw [getD_map_of_lt g _ 0 d i (by simpa using h)]
  congr 1
  rw [List.getD_eq_getElem _ _ (by simpa using h), List.getElem_range]

theorem length_eqScalar (s : List ℚ) (c : ℚ) : (eqScalar s c).length = s.length := by
  simp [eqScalar]

theorem length_andMask (a b : List Bool) :
    (andMask a b).length = min a.length b.length := by
  simp [andMask]

theorem length_ltMask (a b : List ℚ) : (ltMask a b).length = min a.length b.length := by
  simp [ltMask]

theorem length_gtMask (a b : List ℚ) : (gtMask a b).length = min a.length b.length := by
  simp [gtMask]

theorem length_eqMask (a b : List ℚ) : (eqMask a b).length = min a.length b.length := by
  simp [eqMask]

theorem length_npSelect (cs : List (List Bool × String)) (dflt : String) (n : Nat) :
    (npSelect cs dflt n).length = n := by
  simp [npSelect]

theorem length_eligSeries (m1 m2 m3 : List ℚ) (n : Nat) :
    (eligSeries m1 m2 m3 n).length = n := by
  unfold eligSeries
  exact length_npSelect _ _ _

theorem length_reasonSeries (m1 m2 m3 : List ℚ) (n : Nat) :
    (reasonSeries m1 m2 m3 n).length = n := by
  unfold reasonSeries
  exact length_npSelect _ _ _

theorem length_to_num (s : List Cell) : (to_num s).length = s.length := by
  simp [to_num]

theorem getD_eqScalar (s : List ℚ) (c : ℚ) (i : Nat) (h : i < s.length) :
    (eqScalar s c).getD i false = decide (s.getD i 0 = c) :=
  getD_map_of_lt _ s 0 false i h

theorem getD_andMask (a b : List Bool) (i : Nat) (ha : i < a.length)
    (hb : i < b.length) :
    (andMask a b).getD i false = (a.getD i false && b.getD i false) :=
  getD_zipWith_of_lt _ a b false false false i ha hb

theorem getD_ltMask (a b : List ℚ) (i : Nat) (ha : i < a.length) (hb : i < b.length) :
    (ltMask a b).getD i false = decide (a.getD i 0 < b.getD i 0) :=
  getD_zipWith_of_lt _ a b 0 0 false i ha hb

theorem getD_gtMask (a b : List ℚ) (i : Nat) (ha : i < a.length) (hb : i < b.length) :
    (gtMask a b).getD i false = decide (a.getD i 0 > b.getD i 0) :=
  getD_zipWith_of_lt _ a b 0 0 false i ha hb

theorem getD_eqMask (a b : List ℚ) (i : Nat) (ha : i < a.length) (hb : i < b.length) :
    (eqMask a b).getD i false = decide (a.getD i 0 = b.getD i 0) :=
  getD_zipWith_of_lt _ a b 0 0 false i ha hb

theorem npSelect_getD (cs : List (List Bool × String)) (dflt : String) (n i : Nat)
    (d : String) (hi : i < n) :
    (npSelect cs dflt n).getD i d =
      selectRow (cs.map (fun p => (p.1.getD i false, p.2))) dflt := by
  unfold npSelect
  exact getD_range_map _ d n i hi

theorem zeroAllMask_getD (m1 m2 m3 : List ℚ) (n i : Nat) (h1 : m1.length = n)
    (h2 : m2.length = n) (h3 : m3.length = n) (hi : i < n) :
    (andMask (andMask (eqScalar m1 0) (eqScalar m2 0)) (eqScalar m3 0)).getD i false
      = (decide (m1.getD i 0 = 0) && decide (m2.getD i 0 = 0) &&
          decide (m3.getD i 0 = 0)) := by
  rw [getD_andMask _ _ i (by simp [length_andMask, length_eqScalar, h1, h2]; omega)
        (by simp [length_eqScalar, h3]; omega),
      getD_andMask _ _ i (by simp [length_eqScalar, h1]; omega)
        (by simp [length_eqScalar, h2]; omega),
      getD_eqScalar _ _ i (by omega), getD_eqScalar _ _ i (by omega),
      getD_eqScalar _ _ i (by omega)]

theorem incMask_getD (m1 m2 m3 : List ℚ) (n i : Nat) (h1 : m1.length = n)
    (h2 : m2.length = n) (h3 : m3.length = n) (hi : i < n) :
    (andMask (ltMask m1 m2) (ltMask m2 m3)).getD i false
      = (decide (m1.getD i 0 < m2.getD i 0) && decide (m2.getD i 0 < m3.getD i 0)) := by
  rw [getD_andMask _ _ i (by simp [length_ltMask, h1, h2]; omega)
        (by simp [length_ltMask, h2, h3]; omega),
      getD_ltMask _ _ i (by omega) (by omega), getD_ltMask _ _ i (by omega) (by omega)]

theorem decMask_getD (m1 m2 m3 : List ℚ) (n i : Nat) (h1 : m1.length = n)
    (h2 : m2.length = n) (h3 : m3.length = n) (hi : i < n) :
    (andMask (gtMask m1 m2) (gtMask m2 m3)).getD i false
      = (decide (m1.getD i 0 > m2.getD i 0) && decide (m2.getD i 0 > m3.getD i 0)) := by
  rw [getD_andMask _ _ i (by simp [length_gtMask, h1, h2]; omega)
        (by simp [length_gtMask, h2, h3]; omega),
      getD_gtMask _ _ i (by omega) (by omega), getD_gtMask _ _ i (by omega) (by omega)]

theorem constMask_getD (m1 m2 m3 : List ℚ) (n i : Nat) (h1 : m1.length = n)
    (h2 : m2.length = n) (h3 : m3.length = n) (hi : i < n) :
    (andMask (eqMask m1 m2) (eqMask m2 m3)).getD i false
      = (decide (m1.getD i 0 = m2.getD i 0) && decide (m2.getD i 0 = m3.getD i 0)) := by
  rw [getD_andMask _ _ i (by simp [length_eqMask, h1, h2]; omega)
        (by simp [length_eqMask, h2, h3]; omega),
      getD_eqMask _ _ i (by omega) (by omega), getD_eqMask _ _ i (by omega) (by omega)]

theorem selectRow_eq_ruleLabel (v1 v2 v3 : ℚ) :
    selectRow [((decide (v1 = 0) && decide (v2 = 0) && decide (v3 = 0)), "Eligible"),
               ((decide (v1 < v2) && decide (v2 < v3)), "Ineligible"),
               ((decide (v1 > v2) && decide (v2 > v3)), "Eligible"),
               ((decide (v1 = v2) && decide (v2 = v3)), "Dormant")] ("Ineligible")
      = ruleLabel v1 v2 v3 := by
  simp only [selectRow, ruleLabel, Bool.and_eq_true, decide_eq_true_eq]
  split_ifs <;> first | rfl | tauto

theorem selectRow_eq_ruleReason (v1 v2 v3 : ℚ) :
    selectRow [((decide (v1 = 0) && decide (v2 = 0) && decide (v3 = 0)),
                  "Zero balance across selected months"),
               ((decide (v1 < v2) && decide (v2 < v3)),
                  "Strictly increasing debt across selected months"),
               ((decide (v1 > v2) && decide (v2 > v3)),
                  "Strictly decreasing debt across selected months"),
               ((decide (v1 = v2) && decide (v2 = v3)),
                  "Constant balance across selected months (Dormant)")]
        ("Mixed behaviour")
      = ruleReason v1 v2 v3 := by
  simp only [selectRow, ruleReason, Bool.and_eq_true, decide_eq_true_eq]
  split_ifs <;> first | rfl | tauto

theorem eligSeries_getD (m1 m2 m3 : List ℚ) (n i : Nat) (d : String)
    (h1 : m1.length = n) (h2 : m2.length = n) (h3 : m3.length = n) (hi : i < n) :
    (eligSeries m1 m2 m3 n).getD i d =
      ruleLabel (m1.getD i 0) (m2.getD i 0) (m3.getD i 0) := by
  unfold eligSeries
  rw [npSelect_getD _ _ _ _ _ hi]
  simp only [List.map_cons, List.map_nil]
  rw [zeroAllMask_getD m1 m2 m3 n i h1 h2 h3 hi, incMask_getD m1 m2 m3 n i h1 h2 h3 hi,
      decMask_getD m1 m2 m3 n i h1 h2 h3 hi, constMask_getD m1 m2 m3 n i h1 h2 h3 hi]
  exact selectRow_eq_ruleLabel _ _ _

theorem reasonSeries_getD (m1 m2 m3 : List ℚ) (n i : Nat) (d : String)
    (h1 : m1.length = n) (h2 : m2.length = n) (h3 : m3.length = n) (hi : i < n) :
    (reasonSeries m1 m2 m3 n).getD i d =
      ruleReason (m1.getD i 0) (m2.getD i 0) (m3.getD i 0) := by
  unfold reasonSeries
  rw [npSelect_getD _ _ _ _ _ hi]
  simp only [List.map_cons, List.map_nil]
  rw [zeroAllMask_getD m1 m2 m3 n i h1 h2 h3 hi, incMask_getD m1 m2 m3 n i h1 h2 h3 hi,
      decMask_getD m1 m2 m3 n i h1 h2 h3 hi, constMask_getD m1 m2 m3 n i h1 h2 h3 hi]
  exact selectRow_eq_ruleReason _ _ _

/-! Helper lemmas: column lookup after pandas-style column assignment. -/

theorem find?_replace_self (l : List Column) (nm : String) (vs : List Cell)
    (h : l.any (fun c => c.name == nm) = true) :
    (l.map (fun c : Column => if c.name == nm then ⟨c.name, vs⟩ else c)).find?
        (fun c => c.name == nm) = some ⟨nm, vs⟩ := by
  induction l with
  | nil => simp at h
  | cons c t ih =>
    simp only [List.map_cons]
    by_cases hc : c.name = nm
    · rw [if_pos (by simpa using hc), List.find?_cons_of_pos _ (by simpa using hc)]
      rw [hc]
    · rw [if_neg (by simpa using hc), List.find?_cons_of_neg _ (by simpa using hc)]
      apply ih
      simpa [hc] using h

theorem find?_replace_ne (l : List Column) (nm nm' : String) (vs : List Cell)
    (h : nm ≠ nm') :
    (l.map (fun c : Column => if c.name == nm' then ⟨c.name, vs⟩ else c)).find?
        (fun c => c.name == nm) = l.find? (fun c => c.name == nm) := by
  induction l with
  | nil => rfl
  | cons c t ih =>
    simp only [List.map_cons]
    by_cases hb : c.name = nm
    · have hc : ¬ c.name = nm' := by rw [hb]; exact h
      rw [if_neg (by simpa using hc), List.find?_cons_of_pos _ (by simpa using hb),
        List.find?_cons_of_pos _ (by simpa using hb)]
    · by_cases hc : c.name = nm'
      · rw [if_pos (by simpa using hc), List.find?_cons_of_neg _ (by simpa using hb),
          List.find?_cons_of_neg _ (by simpa using hb)]
        exact ih
      · rw [if_neg (by simpa using hc), List.find?_cons_of_neg _ (by simpa using hb),
          List.find?_cons_of_neg _ (by simpa using hb)]
        exact ih

theorem find?_setCol_self (t : Table) (nm : String) (vs : List Cell) :
    (t.setCol nm vs).find? nm = some ⟨nm, vs⟩ := by
  unfold Table.setCol Table.find?
  by_cases hA : t.cols.any (fun c => c.name == nm) = true
  · rw [if_pos hA]
    exact find?_replace_self t.cols nm vs hA
  · rw [if_neg hA]
    have hnone : t.cols.find? (fun c => c.name == nm) = none :=
      List.find?_eq_none.mpr (fun x hx hpx => hA (List.any_eq_true.mpr ⟨x, hx, hpx⟩))
    show (t.cols ++ [(⟨nm, vs⟩ : Column)]).find? (fun c => c.name == nm) = some ⟨nm, vs⟩
    rw [List.find?_append, hnone]
    simp

theorem find?_setCol_ne (t : Table) (nm nm' : String) (vs : List Cell) (h : nm ≠ nm') :
    (t.setCol nm' vs).find? nm = t.find? nm := by
  unfold Table.setCol Table.find?
  by_cases hA : t.cols.any (fun c => c.name == nm') = true
  · rw [if_pos hA]
    exact find?_replace_ne t.cols nm nm' vs h
  · rw [if_neg hA]
    show (t.cols ++ [(⟨nm', vs⟩ : Column)]).find? (fun c => c.name == nm) =
      t.cols.find? (fun c => c.name == nm)
    rw [List.find?_append]
    have : ([(⟨nm', vs⟩ : Column)].find? (fun c => c.name == nm)) = none := by
      simp
      exact fun e => h e.symm
    rw [this, Option.or_none]

/-! Helper lemmas: the shape of a successful classification run. -/

theorem compute_ok_eq (df : Table) (c1 c2 c3 : String) (k1 k2 k3 : Column)
    (h1 : df.find? c1 = some k1) (h2 : df.find? c2 = some k2)
    (h3 : df.find? c3 = some k3) :
    compute_debt_eligibility df c1 c2 c3 = Except.ok
      ((df.setCol ("DebtEligibility")
          ((eligSeries (to_num k1.values) (to_num k2.values) (to_num k3.values)
            df.nrows).map Cell.str)).setCol ("Reason")
        ((reasonSeries (to_num k1.values) (to_num k2.values) (to_num k3.values)
          df.nrows).map Cell.str)) := by
  unfold compute_debt_eligibility
  rw [h1, h2, h3]

theorem compute_results_find (df : Table) (c1 c2 c3 : String) (k1 k2 k3 : Column)
    (h1 : df.find? c1 = some k1) (h2 : df.find? c2 = some k2)
    (h3 : df.find? c3 = some k3) :
    ∃ out, compute_debt_eligibility df c1 c2 c3 = Except.ok out ∧
      out.find? ("DebtEligibility") = some ⟨"DebtEligibility",
        (eligSeries (to_num k1.values) (to_num k2.values) (to_num k3.values)
          df.nrows).map Cell.str⟩ ∧
      out.find? ("Reason") = some ⟨"Reason",
        (reasonSeries (to_num k1.values) (to_num k2.values) (to_num k3.values)
          df.nrows).map Cell.str⟩ := by
  refine ⟨_, compute_ok_eq df c1 c2 c3 k1 k2 k3 h1 h2 h3, ?_, ?_⟩
  · rw [find?_setCol_ne _ _ _ _ (by decide)]
    exact find?_setCol_self _ _ _
  · exact find?_setCol_self _ _ _

/-! Helper lemmas: the summary aggregation. -/

theorem value_counts_nil : value_counts [] = [] := by
  rw [value_counts]

theorem value_counts_cons (v : Cell) (rest : List Cell) :
    value_counts (v :: rest) =
      (v, (v :: rest).count v) :: value_counts (rest.filter (fun w => w ≠ v)) := by
  rw [value_counts]

theorem value_counts_complete (l : List Cell) :
    ∀ v ∈ l, (v, l.count v) ∈ value_counts l := by
  induction l using value_counts.induct with
  | case1 => simp
  | case2 v rest ih =>
    intro w hw
    rw [value_counts_cons]
    by_cases hv : w = v
    · subst hv
      exact List.mem_cons_self _ _
    · have hrest : w ∈ rest := by
        rcases List.mem_cons.mp hw with h | h
        · exact absurd h hv
        · exact h
      have hwf : w ∈ rest.filter (fun x => x ≠ v) :=
        List.mem_filter.mpr ⟨hrest, by simp [hv]⟩
      have hmem := ih w hwf
      have hcf : List.count w (rest.filter (fun x => x ≠ v)) = List.count w rest :=
        List.count_filter (by simp [hv])
      rw [List.count_cons_of_ne hv, ← hcf]
      exact List.mem_cons_of_mem _ hmem

theorem value_counts_sound (l : List Cell) :
    ∀ p ∈ value_counts l, p.1 ∈ l ∧ p.2 = l.count p.1 := by
  induction l using value_counts.induct with
  | case1 => simp [value_counts_nil]
  | case2 v rest ih =>
    intro p hp
    rw [value_counts_cons] at hp
    rcases List.mem_cons.mp hp with h | h
    · subst h
      exact ⟨List.mem_cons_self _ _, rfl⟩
    · obtain ⟨hmem, hcount⟩ := ih p h
      have hne : p.1 ≠ v := by
        have := (List.mem_filter.mp hmem).2
        simpa using this
      have hrest : p.1 ∈ rest := (List.mem_filter.mp hmem).1
      refine ⟨List.mem_cons_of_mem _ hrest, ?_⟩
      rw [hcount, List.count_filter (by simp [hne]), List.count_cons_of_ne hne]

theorem value_counts_sum (l : List Cell) :
    ((value_counts l).map (fun p => p.2)).sum = l.length := by
  induction l using value_counts.induct with
  | case1 => simp [value_counts_nil]
  | case2 v rest ih =>
    rw [value_counts_cons]
    simp only [List.map_cons, List.sum_cons]
    rw [ih, List.count_cons_self]
    have hfeq : (fun w : Cell => decide (w ≠ v)) = (fun w : Cell => !(w == v)) := by
      funext w
      by_cases h : w = v <;> simp [h]
    have hsplit := List.length_eq_length_filter_add (l := rest) (fun w : Cell => w == v)
    have hcnt : rest.count v = (rest.filter (fun w : Cell => w == v)).length := by
      rw [List.count_eq_countP, List.countP_eq_length_filter]
    rw [hfeq]
    simp only [List.length_cons]
    omega

/-! Helper lemmas: per-row characterisation of a classification run. -/

theorem mem_of_table_find? (t : Table) (c : String) (k : Column)
    (h : t.find? c = some k) : k ∈ t.cols :=
  List.mem_of_find?_eq_some h

theorem row_classification (df : Table) (c1 c2 c3 : String) (k1 k2 k3 : Column)
    (out : Table) (i : Nat)
    (h1 : df.find? c1 = some k1) (h2 : df.find? c2 = some k2)
    (h3 : df.find? c3 = some k3) (ha : df.aligned)
    (hout : compute_debt_eligibility df c1 c2 c3 = Except.ok out)
    (hi : i < df.nrows) :
    ∃ cE cR, out.find? ("DebtEligibility") = some cE ∧
      out.find? ("Reason") = some cR ∧
      cE.values.getD i Cell.null = Cell.str (ruleLabel
        ((to_num k1.values).getD i 0) ((to_num k2.values).getD i 0)
        ((to_num k3.values).getD i 0)) ∧
      cR.values.getD i Cell.null = Cell.str (ruleReason
        ((to_num k1.values).getD i 0) ((to_num k2.values).getD i 0)
        ((to_num k3.values).getD i 0)) := by
  obtain ⟨out', hc, hE, hR⟩ := compute_results_find df c1 c2 c3 k1 k2 k3 h1 h2 h3
  rw [hout] at hc
  injection hc with hoo
  subst hoo
  have l1 : (to_num k1.values).length = df.nrows := by
    rw [length_to_num]; exact ha k1 (mem_of_table_find? df c1 k1 h1)
  have l2 : (to_num k2.values).length = df.nrows := by
    rw [length_to_num]; exact ha k2 (mem_of_table_find? df c2 k2 h2)
  have l3 : (to_num k3.values).length = df.nrows := by
    rw [length_to_num]; exact ha k3 (mem_of_table_find? df c3 k3 h3)
  refine ⟨_, _, hE, hR, ?_, ?_⟩
  · show ((eligSeries (to_num k1.values) (to_num k2.values) (to_num k3.values)
        df.nrows).map Cell.str).getD i Cell.null = _
    rw [getD_map_of_lt Cell.str _ ("") Cell.null i
      (by rw [length_eligSeries]; exact hi)]
    rw [eligSeries_getD _ _ _ _ i ("") l1 l2 l3 hi]
  · show ((reasonSeries (to_num k1.values) (to_num k2.values) (to_num k3.values)
        df.nrows).map Cell.str).getD i Cell.null = _
    rw [getD_map_of_lt Cell.str _ ("") Cell.null i
      (by rw [length_reasonSeries]; exact hi)]
    rw [reasonSeries_getD _ _ _ _ i ("") l1 l2 l3 hi]

theorem compute_ok_finds (df : Table) (c1 c2 c3 : String) (out : Table)
    (hout : compute_debt_eligibility df c1 c2 c3 = Except.ok out) :
    ∃ k1 k2 k3, df.find? c1 = some k1 ∧ df.find? c2 = some k2 ∧
      df.find? c3 = some k3 := by
  unfold compute_debt_eligibility at hout
  rcases e1 : df.find? c1 with _ | k1 <;> rw [e1] at hout <;>
    rcases e2 : df.find? c2 with _ | k2 <;> rw [e2] at hout <;>
      rcases e3 : df.find? c3 with _ | k3 <;> rw [e3] at hout <;>
        first
          | exact ⟨k1, k2, k3, rfl, rfl, rfl⟩
          | exact absurd hout (by simp)

theorem rule_pair_mem (v1 v2 v3 : ℚ) :
    (Cell.str (ruleLabel v1 v2 v3), Cell.str (ruleReason v1 v2 v3)) ∈
      [(Cell.str ("Eligible"), Cell.str ("Zero balance across selected months")),
       (Cell.str ("Ineligible"),
         Cell.str ("Strictly increasing debt across selected months")),
       (Cell.str ("Eligible"),
         Cell.str ("Strictly decreasing debt across selected months")),
       (Cell.str ("Dormant"),
         Cell.str ("Constant balance across selected months (Dormant)")),
       (Cell.str ("Ineligible"), Cell.str ("Mixed behaviour"))] := by
  unfold ruleLabel ruleReason
  split_ifs <;> simp

/-! Claim theorems. -/

/-- C1: for every row of the input table, the classifier assigns the
`DebtEligibility` label and `Reason` by first-match over the five
predicates on the coerced values v1, v2, v3 in the priority order
zero-all, strictly-increasing, strictly-decreasing, constant, default —
`ruleLabel` and `ruleReason` spell out exactly that first-match rule with
its five label/reason outcomes. -/
theorem C1_first_match_classification (df : Table) (c1 c2 c3 : String)
    (k1 k2 k3 : Column) (out : Table) (i : Nat)
    (h1 : df.find? c1 = some k1) (h2 : df.find? c2 = some k2)
    (h3 : df.find? c3 = some k3) (ha : df.aligned)
    (hout : compute_debt_eligibility df c1 c2 c3 = Except.ok out)
    (hi : i < df.nrows) :
    ∃ cE cR, out.find? ("DebtEligibility") = some cE ∧
      out.find? ("Reason") = some cR ∧
      cE.values.getD i Cell.null = Cell.str (ruleLabel
        ((to_num k1.values).getD i 0) ((to_num k2.values).getD i 0)
        ((to_num k3.values).getD i 0)) ∧
      cR.values.getD i Cell.null = Cell.str (ruleReason
        ((to_num k1.values).getD i 0) ((to_num k2.values).getD i 0)
        ((to_num k3.values).getD i 0)) :=
  row_classification df c1 c2 c3 k1 k2 k3 out i h1 h2 h3 ha hout hi

/-- Witness for C1: the classifier run on the one-row zero-balance table. -/
theorem C1_first_match_classification_witness :
    (tZero.find? ("m") = some ⟨"m", [Cell.num 0]⟩ ∧ tZero.aligned ∧
      compute_debt_eligibility tZero ("m") ("m") ("m") = Except.ok tZeroOut ∧
      0 < tZero.nrows) ∧
    (∃ cE cR, tZeroOut.find? ("DebtEligibility") = some cE ∧
      tZeroOut.find? ("Reason") = some cR ∧
      cE.values.getD 0 Cell.null = Cell.str (ruleLabel
        ((to_num [Cell.num 0]).getD 0 0) ((to_num [Cell.num 0]).getD 0 0)
        ((to_num [Cell.num 0]).getD 0 0)) ∧
      cR.values.getD 0 Cell.null = Cell.str (ruleReason
        ((to_num [Cell.num 0]).getD 0 0) ((to_num [Cell.num 0]).getD 0 0)
        ((to_num [Cell.num 0]).getD 0 0))) :=
  ⟨⟨rfl, by decide, rfl, by decide⟩,
    C1_first_match_classification tZero ("m") ("m") ("m")
      (⟨"m", [Cell.num 0]⟩ : Column) (⟨"m", [Cell.num 0]⟩ : Column)
      (⟨"m", [Cell.num 0]⟩ : Column) tZeroOut 0 rfl rfl rfl (by decide)
      rfl (by decide)⟩

/-- C3: a row whose three coerced values are all `0` is labelled
`Eligible` with the zero-balance reason and is never labelled `Dormant`,
although it also satisfies the constant predicate — the all-zero rule has
strict priority. -/
theorem C3_zero_overrides_constant (df : Table) (c1 c2 c3 : String)
    (k1 k2 k3 : Column) (out : Table) (i : Nat)
    (h1 : df.find? c1 = some k1) (h2 : df.find? c2 = some k2)
    (h3 : df.find? c3 = some k3) (ha : df.aligned)
    (hout : compute_debt_eligibility df c1 c2 c3 = Except.ok out)
    (hi : i < df.nrows)
    (hz1 : (to_num k1.values).getD i 0 = 0)
    (hz2 : (to_num k2.values).getD i 0 = 0)
    (hz3 : (to_num k3.values).getD i 0 = 0) :
    ∃ cE cR, out.find? ("DebtEligibility") = some cE ∧
      out.find? ("Reason") = some cR ∧
      cE.values.getD i Cell.null = Cell.str ("Eligible") ∧
      cR.values.getD i Cell.null = Cell.str ("Zero balance across selected months") ∧
      cE.values.getD i Cell.null ≠ Cell.str ("Dormant") := by
  obtain ⟨cE, cR, hE, hR, hLab, hRea⟩ :=
    row_classification df c1 c2 c3 k1 k2 k3 out i h1 h2 h3 ha hout hi
  rw [hz1, hz2, hz3] at hLab hRea
  refine ⟨cE, cR, hE, hR, ?_, ?_, ?_⟩
  · rw [hLab]
    simp [ruleLabel]
  · rw [hRea]
    simp [ruleReason]
  · rw [hLab]
    simp [ruleLabel]

/-- Witness for C3: the one-row zero-balance table. -/
theorem C3_zero_overrides_constant_witness :
    (tZero.find? ("m") = some ⟨"m", [Cell.num 0]⟩ ∧ tZero.aligned ∧
      compute_debt_eligibility tZero ("m") ("m") ("m") = Except.ok tZeroOut ∧
      0 < tZero.nrows ∧ (to_num [Cell.num 0]).getD 0 0 = 0) ∧
    (∃ cE cR, tZeroOut.find? ("DebtEligibility") = some cE ∧
      tZeroOut.find? ("Reason") = some cR ∧
      cE.values.getD 0 Cell.null = Cell.str ("Eligible") ∧
      cR.values.getD 0 Cell.null = Cell.str ("Zero balance across selected months") ∧
      cE.values.getD 0 Cell.null ≠ Cell.str ("Dormant")) :=
  ⟨⟨rfl, by decide, rfl, by decide, by decide⟩,
    C3_zero_overrides_constant tZero ("m") ("m") ("m")
      (⟨"m", [Cell.num 0]⟩ : Column) (⟨"m", [Cell.num 0]⟩ : Column)
      (⟨"m", [Cell.num 0]⟩ : Column) tZeroOut 0 rfl rfl rfl (by decide)
      rfl (by decide) (by decide) (by decide) (by decide)⟩

/-- C10: every produced `DebtEligibility` value is one of the three
canonical labels, paired with the reason of the same first-matching
predicate — every row's (label, reason) pair is one of the five fixed
pairs. -/
theorem C10_label_reason_invariant (df : Table) (c1 c2 c3 : String) (out : Table)
    (cE cR : Column) (i : Nat) (ha : df.aligned)
    (hout : compute_debt_eligibility df c1 c2 c3 = Except.ok out)
    (hE : out.find? ("DebtEligibility") = some cE)
    (hR : out.find? ("Reason") = some cR) (hi : i < df.nrows) :
    (cE.values.getD i Cell.null, cR.values.getD i Cell.null) ∈
      [(Cell.str ("Eligible"), Cell.str ("Zero balance across selected months")),
       (Cell.str ("Ineligible"),
         Cell.str ("Strictly increasing debt across selected months")),
       (Cell.str ("Eligible"),
         Cell.str ("Strictly decreasing debt across selected months")),
       (Cell.str ("Dormant"),
         Cell.str ("Constant balance across selected months (Dormant)")),
       (Cell.str ("Ineligible"), Cell.str ("Mixed behaviour"))] := by
  obtain ⟨k1, k2, k3, h1, h2, h3⟩ := compute_ok_finds df c1 c2 c3 out hout
  obtain ⟨cE', cR', hE', hR', hLab, hRea⟩ :=
    row_classification df c1 c2 c3 k1 k2 k3 out i h1 h2 h3 ha hout hi
  rw [hE] at hE'
  injection hE' with e
  subst e
  rw [hR] at hR'
  injection hR' with r
  subst r
  rw [hLab, hRea]
  exact rule_pair_mem _ _ _

/-- Witness for C10: the one-row zero-balance table. -/
theorem C10_label_reason_invariant_witness :
    (tZero.aligned ∧
      compute_debt_eligibility tZero ("m") ("m") ("m") = Except.ok tZeroOut ∧
      tZeroOut.find? ("DebtEligibility") =
        some ⟨"DebtEligibility", [Cell.str ("Eligible")]⟩ ∧
      tZeroOut.find? ("Reason") =
        some ⟨"Reason", [Cell.str ("Zero balance across selected months")]⟩ ∧
      0 < tZero.nrows) ∧
    (((⟨"DebtEligibility", [Cell.str ("Eligible")]⟩ : Column).values.getD 0 Cell.null,
      (⟨"Reason", [Cell.str ("Zero balance across selected months")]⟩ :
        Column).values.getD 0 Cell.null) ∈
      [(Cell.str ("Eligible"), Cell.str ("Zero balance across selected months")),
       (Cell.str ("Ineligible"),
         Cell.str ("Strictly increasing debt across selected months")),
       (Cell.str ("Eligible"),
         Cell.str ("Strictly decreasing debt across selected months")),
       (Cell.str ("Dormant"),
         Cell.str ("Constant balance across selected months (Dormant)")),
       (Cell.str ("Ineligible"), Cell.str ("Mixed behaviour"))]) :=
  ⟨⟨by decide, rfl, by decide, by decide, by decide⟩,
    C10_label_reason_invariant tZero ("m") ("m") ("m") tZeroOut
      (⟨"DebtEligibility", [Cell.str ("Eligible")]⟩ : Column)
      (⟨"Reason", [Cell.str ("Zero balance across selected months")]⟩ : Column)
      0 (by decide) rfl (by decide) (by decide) (by decide)⟩

/-- C4 counterexample: on the spec's four-row end-to-end scenario the code
labels the first row (100, 50, 50) `Ineligible` (mixed behaviour, since
50 > 50 fails), not `Dormant` as the claim states. -/
theorem C4_counterexample :
    labelCells (compute_debt_eligibility demoTable ("m1") ("m2") ("m3")) =
      some [Cell.str ("Ineligible"), Cell.str ("Eligible"),
        Cell.str ("Ineligible"), Cell.str ("Eligible")] ∧
    labelCells (compute_debt_eligibility demoTable ("m1") ("m2") ("m3")) ≠
      some [Cell.str ("Dormant"), Cell.str ("Eligible"),
        Cell.str ("Ineligible"), Cell.str ("Eligible")] := by
  constructor
  · decide
  · decide

/-- C4 (amended): on the four-row input with month triples (100,50,50),
(0,0,0), (10,20,30), (30,20,10) the classifier produces the labels
Ineligible, Eligible, Ineligible, Eligible, in that row order. -/
theorem C4_end_to_end_labels :
    labelCells (compute_debt_eligibility demoTable ("m1") ("m2") ("m3")) =
      some [Cell.str ("Ineligible"), Cell.str ("Eligible"),
        Cell.str ("Ineligible"), Cell.str ("Eligible")] := by
  decide

/-- C2: numeric coercion is total — it never fails, preserves the length of
the series, substitutes `0` for every missing or unparseable cell, and a
row whose three values are all missing/unparseable is classified exactly
like a row of literal zeros. -/
theorem C2_total_coercion (s : List Cell) (a b c : Cell) (i : Nat)
    (hi : i < s.length) (hpa : parseNum a = none) (hpb : parseNum b = none)
    (hpc : parseNum c = none) :
    (to_num s).length = s.length ∧
    (to_num s).getD i 0 = (parseNum (s.getD i Cell.null)).getD 0 ∧
    resultPair (compute_debt_eligibility (row1Table a b c) ("m1") ("m2") ("m3")) =
      resultPair (compute_debt_eligibility
        (row1Table (Cell.num 0) (Cell.num 0) (Cell.num 0)) ("m1") ("m2") ("m3")) := by
  refine ⟨length_to_num s, ?_, ?_⟩
  · unfold to_num
    exact getD_map_of_lt _ s Cell.null 0 i hi
  · obtain ⟨out1, hc1, hE1, hR1⟩ := compute_results_find (row1Table a b c)
      ("m1") ("m2") ("m3") ⟨"m1", [a]⟩ ⟨"m2", [b]⟩ ⟨"m3", [c]⟩ rfl rfl rfl
    obtain ⟨out2, hc2, hE2, hR2⟩ := compute_results_find
      (row1Table (Cell.num 0) (Cell.num 0) (Cell.num 0)) ("m1") ("m2") ("m3")
      ⟨"m1", [Cell.num 0]⟩ ⟨"m2", [Cell.num 0]⟩ ⟨"m3", [Cell.num 0]⟩ rfl rfl rfl
    rw [hc1, hc2]
    simp only [resultPair]
    rw [hE1, hR1, hE2, hR2]
    have ea : to_num [a] = to_num [Cell.num 0] := by
      show [(parseNum a).getD 0] = [(parseNum (Cell.num 0)).getD 0]
      rw [hpa]
      rfl
    have eb : to_num [b] = to_num [Cell.num 0] := by
      show [(parseNum b).getD 0] = [(parseNum (Cell.num 0)).getD 0]
      rw [hpb]
      rfl
    have ec : to_num [c] = to_num [Cell.num 0] := by
      show [(parseNum c).getD 0] = [(parseNum (Cell.num 0)).getD 0]
      rw [hpc]
      rfl
    have hn : (row1Table a b c).nrows =
        (row1Table (Cell.num 0) (Cell.num 0) (Cell.num 0)).nrows := rfl
    rw [ea, eb, ec, hn]

/-- Witness for C2: a row of three missing values against a row of literal
zeros. -/
theorem C2_total_coercion_witness :
    (0 < ([Cell.null] : List Cell).length ∧ parseNum Cell.null = none) ∧
    ((to_num [Cell.null]).length = ([Cell.null] : List Cell).length ∧
      (to_num [Cell.null]).getD 0 0 =
        (parseNum (([Cell.null] : List Cell).getD 0 Cell.null)).getD 0 ∧
      resultPair (compute_debt_eligibility (row1Table Cell.null Cell.null Cell.null)
          ("m1") ("m2") ("m3")) =
        resultPair (compute_debt_eligibility
          (row1Table (Cell.num 0) (Cell.num 0) (Cell.num 0))
          ("m1") ("m2") ("m3"))) :=
  ⟨⟨by decide, rfl⟩,
    C2_total_coercion [Cell.null] Cell.null Cell.null Cell.null 0
      (by decide) rfl rfl rfl⟩

/-- C5 counterexample: on a table whose only column is named `member`
(keyword-excluded), the guesser's fall-back returns that very column, so
the claim's unconditional exclusion fails. -/
theorem C5_counterexample :
    guess_balance_columns tMem = ["member"] ∧
    (exclude_keywords.any (fun k => strHas (lowerChars ("member")) k)) = true := by
  constructor
  · decide
  · decide

/-- C5 (amended): provided at least one column passes both filters, the
guesser returns exactly the columns whose lowercased name contains no
excluded keyword and whose numeric parse fraction strictly exceeds 0.3,
in the table's original column order. -/
theorem C5_guesser_filter (df : Table) (hpass : df.cols.filter keepCol ≠ []) :
    guess_balance_columns df = (df.cols.filter keepCol).map (fun c => c.name) ∧
    (∀ c ∈ df.cols, (c ∈ df.cols.filter keepCol ↔
      ((exclude_keywords.any (fun k => strHas (lowerChars c.name) k)) = false ∧
        numFrac c.values > 3 / 10))) ∧
    ((df.cols.filter keepCol).map (fun c => c.name)).Sublist
      (df.cols.map (fun c => c.name)) := by
  refine ⟨?_, ?_, List.Sublist.map _ (List.filter_sublist _)⟩
  · show (if ((df.cols.filter keepCol).map (fun c => c.name)).isEmpty then
        df.cols.map (fun c => c.name)
      else (df.cols.filter keepCol).map (fun c => c.name)) =
        (df.cols.filter keepCol).map (fun c => c.name)
    have hne : ((df.cols.filter keepCol).map (fun c => c.name)).isEmpty = false := by
      rw [List.isEmpty_eq_false]
      intro hmap
      exact hpass (List.map_eq_nil_iff.mp hmap)
    rw [hne]
    simp
  · intro c hc
    rw [List.mem_filter]
    simp only [keepCol]
    constructor
    · rintro ⟨-, hk⟩
      simp only [Bool.and_eq_true] at hk
      obtain ⟨hL, hRt⟩ := hk
      rw [Bool.not_eq_true'] at hL
      exact ⟨hL, by simpa using hRt⟩
    · rintro ⟨hA, hB⟩
      refine ⟨hc, ?_⟩
      rw [hA]
      simpa using hB

theorem keepCol_bal : keepCol (⟨"bal", [Cell.num 5]⟩ : Column) = true := by
  show (!(exclude_keywords.any (fun k => strHas (lowerChars ("bal")) k)) &&
    decide (numFrac [Cell.num 5] > 3 / 10)) = true
  have h1 : (exclude_keywords.any (fun k => strHas (lowerChars ("bal")) k)) = false := by
    decide
  rw [h1]
  simp only [Bool.not_false, Bool.true_and, decide_eq_true_eq]
  norm_num [numFrac, parseNum]

theorem wGuess_filter_ne : wGuess.cols.filter keepCol ≠ [] := by
  intro hfil
  exact absurd keepCol_bal
    ((List.filter_eq_nil_iff.mp hfil) (⟨"bal", [Cell.num 5]⟩ : Column) (by decide))

/-- Witness for C5: a table with one excluded and one passing column. -/
theorem C5_guesser_filter_witness :
    (wGuess.cols.filter keepCol ≠ []) ∧
    (guess_balance_columns wGuess =
        (wGuess.cols.filter keepCol).map (fun c => c.name) ∧
      (∀ c ∈ wGuess.cols, (c ∈ wGuess.cols.filter keepCol ↔
        ((exclude_keywords.any (fun k => strHas (lowerChars c.name) k)) = false ∧
          numFrac c.values > 3 / 10))) ∧
      ((wGuess.cols.filter keepCol).map (fun c => c.name)).Sublist
        (wGuess.cols.map (fun c => c.name))) :=
  ⟨wGuess_filter_ne, C5_guesser_filter wGuess wGuess_filter_ne⟩

/-- C6: if no column passes the guesser's filter, all columns are returned
in original order, and a table with at least one column always yields a
non-empty candidate list. -/
theorem C6_fallback_all_columns (df : Table) (hne : df.cols ≠ []) :
    ((∀ c ∈ df.cols, keepCol c = false) →
      guess_balance_columns df = df.cols.map (fun c => c.name)) ∧
    guess_balance_columns df ≠ [] := by
  constructor
  · intro hall
    show (if ((df.cols.filter keepCol).map (fun c => c.name)).isEmpty then
        df.cols.map (fun c => c.name)
      else (df.cols.filter keepCol).map (fun c => c.name)) =
        df.cols.map (fun c => c.name)
    have hfil : df.cols.filter keepCol = [] :=
      List.filter_eq_nil_iff.mpr (fun a ha => by simp [hall a ha])
    rw [hfil]
    simp
  · show (if ((df.cols.filter keepCol).map (fun c => c.name)).isEmpty then
        df.cols.map (fun c => c.name)
      else (df.cols.filter keepCol).map (fun c => c.name)) ≠ []
    by_cases hemp : ((df.cols.filter keepCol).map (fun c => c.name)).isEmpty = true
    · rw [if_pos hemp]
      intro h
      exact hne (List.map_eq_nil_iff.mp h)
    · rw [if_neg hemp]
      exact fun h => hemp (List.isEmpty_iff.mpr h)

/-- Witness for C6: the all-excluded single-column table. -/
theorem C6_fallback_all_columns_witness :
    (tMem.cols ≠ []) ∧
    (((∀ c ∈ tMem.cols, keepCol c = false) →
        guess_balance_columns tMem = tMem.cols.map (fun c => c.name)) ∧
      guess_balance_columns tMem ≠ []) :=
  ⟨by decide, C6_fallback_all_columns tMem (by decide)⟩

theorem setCol_append (t : Table) (nm : String) (vs : List Cell)
    (h : ∀ c ∈ t.cols, c.name ≠ nm) :
    t.setCol nm vs = ⟨t.cols ++ [⟨nm, vs⟩]⟩ := by
  unfold Table.setCol
  rw [if_neg]
  intro hA
  obtain ⟨x, hx, hpx⟩ := List.any_eq_true.mp hA
  exact h x hx (by simpa using hpx)

/-- C7 counterexample: on a table that already carries a `DebtEligibility`
column, the classifier overwrites that column in place instead of
appending, so the output has one new column rather than two and a
pre-existing column is changed. -/
theorem C7_counterexample :
    compute_debt_eligibility tDE ("m") ("m") ("m") = Except.ok tDEout ∧
    tDE.cols.length = 2 ∧ tDEout.cols.length = 3 ∧
    tDE.find? ("DebtEligibility") ≠ tDEout.find? ("DebtEligibility") :=
  ⟨rfl, by decide, by decide, by decide⟩

/-- C7 (amended): for every table with no pre-existing `DebtEligibility`
or `Reason` column and valid column references, the output is the input
table's columns unchanged with exactly the two new columns appended, one
value per row each. -/
theorem C7_frame_append (df : Table) (c1 c2 c3 : String) (k1 k2 k3 : Column)
    (h1 : df.find? c1 = some k1) (h2 : df.find? c2 = some k2)
    (h3 : df.find? c3 = some k3)
    (hres : ∀ c ∈ df.cols, c.name ≠ "DebtEligibility" ∧ c.name ≠ "Reason") :
    ∃ e r, compute_debt_eligibility df c1 c2 c3 =
        Except.ok ⟨df.cols ++ [⟨"DebtEligibility", e⟩, ⟨"Reason", r⟩]⟩ ∧
      e.length = df.nrows ∧ r.length = df.nrows := by
  refine ⟨(eligSeries (to_num k1.values) (to_num k2.values) (to_num k3.values)
      df.nrows).map Cell.str,
    (reasonSeries (to_num k1.values) (to_num k2.values) (to_num k3.values)
      df.nrows).map Cell.str, ?_,
    by simp [length_eligSeries], by simp [length_reasonSeries]⟩
  rw [compute_ok_eq df c1 c2 c3 k1 k2 k3 h1 h2 h3]
  rw [setCol_append df _ _ (fun c hc => (hres c hc).1)]
  rw [setCol_append _ _ _ ?hall]
  case hall =>
    intro c hc
    rcases List.mem_append.mp hc with hin | hin
    · exact (hres c hin).2
    · have : c = ⟨"DebtEligibility", (eligSeries (to_num k1.values)
          (to_num k2.values) (to_num k3.values) df.nrows).map Cell.str⟩ := by
        simpa using hin
      rw [this]
      intro he
      simp at he
  congr 1
  simp

/-- Witness for C7: the one-row zero-balance table, which has no reserved
column names. -/
theorem C7_frame_append_witness :
    (tZero.find? ("m") = some ⟨"m", [Cell.num 0]⟩ ∧
      (∀ c ∈ tZero.cols, c.name ≠ "DebtEligibility" ∧ c.name ≠ "Reason")) ∧
    (∃ e r, compute_debt_eligibility tZero ("m") ("m") ("m") =
        Except.ok ⟨tZero.cols ++ [⟨"DebtEligibility", e⟩, ⟨"Reason", r⟩]⟩ ∧
      e.length = tZero.nrows ∧ r.length = tZero.nrows) :=
  ⟨⟨rfl, by decide⟩,
    C7_frame_append tZero ("m") ("m") ("m") (⟨"m", [Cell.num 0]⟩ : Column)
      (⟨"m", [Cell.num 0]⟩ : Column) (⟨"m", [Cell.num 0]⟩ : Column)
      rfl rfl rfl (by decide)⟩

/-- C8: classification fails exactly when one of the three referenced
balance columns is missing from the table, in which case the
`ColumnNotFound` condition is signalled with no partial output; for any
other input, including arbitrary malformed numeric data, no error is
raised. -/
theorem C8_error_iff (df : Table) (c1 c2 c3 : String) :
    ((∃ msg, compute_debt_eligibility df c1 c2 c3 = Except.error msg) ↔
      (df.find? c1 = none ∨ df.find? c2 = none ∨ df.find? c3 = none)) ∧
    (∀ msg, compute_debt_eligibility df c1 c2 c3 = Except.error msg →
      msg = "ColumnNotFound") := by
  unfold compute_debt_eligibility
  rcases df.find? c1 with _ | k1 <;> rcases df.find? c2 with _ | k2 <;>
    rcases df.find? c3 with _ | k3 <;> simp

/-- C9: for every classified table, the summary pairs every label value
that actually occurs in the `DebtEligibility` column with the count of
rows bearing it, contains nothing else, and its counts sum to the number
of rows. -/
theorem C9_summary_counts (t : Table) (col : Column)
    (h : t.find? ("DebtEligibility") = some col) :
    (∀ v ∈ col.values, (v, col.values.count v) ∈ value_counts col.values) ∧
    (∀ p ∈ value_counts col.values, p.1 ∈ col.values ∧
      p.2 = col.values.count p.1) ∧
    ((value_counts col.values).map (fun p => p.2)).sum = col.values.length :=
  ⟨value_counts_complete _, value_counts_sound _, value_counts_sum _⟩

/-- Witness for C9: a classified table with a non-canonical label among
the values. -/
theorem C9_summary_counts_witness :
    (wSummary.find? ("DebtEligibility") = some ⟨"DebtEligibility",
      [Cell.str ("Eligible"), Cell.str ("Weird"), Cell.str ("Eligible")]⟩) ∧
    ((∀ v ∈ [Cell.str ("Eligible"), Cell.str ("Weird"), Cell.str ("Eligible")],
        (v, ([Cell.str ("Eligible"), Cell.str ("Weird"),
          Cell.str ("Eligible")] : List Cell).count v) ∈
        value_counts [Cell.str ("Eligible"), Cell.str ("Weird"),
          Cell.str ("Eligible")]) ∧
      (∀ p ∈ value_counts [Cell.str ("Eligible"), Cell.str ("Weird"),
          Cell.str ("Eligible")],
        p.1 ∈ ([Cell.str ("Eligible"), Cell.str ("Weird"),
          Cell.str ("Eligible")] : List Cell) ∧
        p.2 = ([Cell.str ("Eligible"), Cell.str ("Weird"),
          Cell.str ("Eligible")] : List Cell).count p.1) ∧
      ((value_counts [Cell.str ("Eligible"), Cell.str ("Weird"),
        Cell.str ("Eligible")]).map (fun p => p.2)).sum =
        ([Cell.str ("Eligible"), Cell.str ("Weird"),
          Cell.str ("Eligible")] : List Cell).length) :=
  ⟨rfl, C9_summary_counts wSummary ⟨"DebtEligibility",
    [Cell.str ("Eligible"), Cell.str ("Weird"), Cell.str ("Eligible")]⟩ rfl⟩
